import Mathlib

/-!
Verification of the MountAndBlade-Translate-PTBR translation pipeline.

This file gives a shallow embedding of the core of the four Python
scripts (translate_protected.py, translate_optimized.py,
translate_csv.py, translate_with_progress.py):

- the token protector and restorer of translate_protected.py
  (functions protect_variables and restore_variables below),
- the brace-token count validation inside the same script,
- the language gates (should_translate variants),
- the cached external-call dispatcher translate_text_cached of
  translate_optimized.py, and
- the per-line processing of translate_csv.py and translate_optimized.py.

Text is modelled as a list of characters (Python str); the external
translation service and the external language classifier are oracle
function parameters where a result of none models an exception being
raised. The ASCII fragment of the Python predicates str.isdigit,
str.isupper, str.isalnum, str.upper and str.strip is modelled; the
source corpus for this repository is pipe-delimited ASCII game text.
-/

/-- Python strings are modelled as lists of characters. -/
abbrev Str := List Char

/-- The whitespace characters removed by Python str.strip, ASCII fragment. -/
def isSpaceChar (c : Char) : Bool :=
  c == ' ' || c == '\t' || c == '\n' || c == '\r'

/-- Python str.strip: remove leading and trailing whitespace. -/
def stripL (s : Str) : Str :=
  ((s.dropWhile isSpaceChar).reverse.dropWhile isSpaceChar).reverse

/-- Python str.isdigit, ASCII fragment: nonempty and all characters digits. -/
def pyIsDigit (s : Str) : Bool :=
  !s.isEmpty && s.all Char.isDigit

/-- Python str.isupper, ASCII fragment: at least one cased character and no
lower-case character. -/
def pyIsUpper (s : Str) : Bool :=
  s.any Char.isAlpha && s.all (fun c => !c.isLower)

/-- Python str.isalnum, ASCII fragment: nonempty and all characters letters
or digits. -/
def pyIsAlnum (s : Str) : Bool :=
  !s.isEmpty && s.all (fun c => c.isAlpha || c.isDigit)

/-- Python str.upper, ASCII fragment. -/
def pyUpper (s : Str) : Str := s.map Char.toUpper

/-- Decimal digits of a natural number, fuel-based so that it reduces in the
kernel. -/
def natCharsAux : Nat → Nat → Str
  | 0, _ => []
  | fuel + 1, n =>
    if n < 10 then [Char.ofNat (48 + n)]
    else natCharsAux fuel (n / 10) ++ [Char.ofNat (48 + n % 10)]

/-- Decimal representation of a natural number, as used by Python f-strings
when numbering placeholders. -/
def natToStr (n : Nat) : Str := natCharsAux (n + 1) n

/-- Longest prefix of characters satisfying p, together with the rest.
Models the greedy character-class repetitions of the regexes. -/
def spanP (p : Char → Bool) : Str → Str × Str
  | [] => ([], [])
  | c :: t =>
    if p c then
      match spanP p t with
      | (a, b) => (c :: a, b)
    else ([], c :: t)

/-- Matcher for a simple substitution variable: an opening brace, the letter
S or s, one or more digits, a closing brace. Embeds the first protection
regex of translate_protected.py. Returns the matched token and the rest. -/
def matchVarS : Str → Option (Str × Str)
  | '{' :: c :: rest =>
    if c == 'S' || c == 's' then
      match spanP Char.isDigit rest with
      | (ds, '}' :: r) => if ds.isEmpty then none else some ('{' :: c :: (ds ++ ['}']), r)
      | _ => none
    else none
  | _ => none

/-- Matcher for a register variable: brace, R or r, the letters e g, one or
more digits, closing brace. Embeds the second protection regex. -/
def matchVarReg : Str → Option (Str × Str)
  | '{' :: c :: 'e' :: 'g' :: rest =>
    if c == 'R' || c == 'r' then
      match spanP Char.isDigit rest with
      | (ds, '}' :: r) =>
        if ds.isEmpty then none
        else some ('{' :: c :: 'e' :: 'g' :: (ds ++ ['}']), r)
      | _ => none
    else none
  | _ => none

/-- Matcher for the player-name variable. Embeds the third protection
regex. -/
def matchPlayername : Str → Option (Str × Str)
  | '{' :: c :: rest =>
    if (c == 'P' || c == 'p') && ("layername".data ++ ['}']).isPrefixOf rest then
      some ('{' :: c :: ("layername".data ++ ['}']), rest.drop 10)
    else none
  | _ => none

/-- Does the list contain a question mark with a colon somewhere after it?
This characterises when the conditional-expression regex (brace, any
non-brace run containing a question mark then later a colon, closing brace)
can split the run into its three branch parts. -/
def hasCond : Str → Bool
  | [] => false
  | c :: t => (c == '?' && t.any (fun d => d == ':')) || hasCond t

/-- Matcher for a conditional gender or number expression. Embeds the fourth
protection regex: since each of its three inner character classes excludes
the closing brace, the match always extends to the first closing brace, and
it succeeds exactly when the enclosed run has a question mark followed later
by a colon. -/
def matchConditional : Str → Option (Str × Str)
  | '{' :: rest =>
    match spanP (fun c => c != '}') rest with
    | (run, '}' :: r) => if hasCond run then some ('{' :: (run ++ ['}']), r) else none
    | _ => none
  | _ => none

/-- Matcher for any other brace-enclosed nonempty content. Embeds the fifth
protection regex. -/
def matchOtherVar : Str → Option (Str × Str)
  | '{' :: rest =>
    match spanP (fun c => c != '}') rest with
    | (run, '}' :: r) => if run.isEmpty then none else some ('{' :: (run ++ ['}']), r)
    | _ => none
  | _ => none

/-- Matcher for the doubled caret styling marker. Embeds the sixth
protection regex. -/
def matchDoubleCaret : Str → Option (Str × Str)
  | '^' :: '^' :: r => some (['^', '^'], r)
  | _ => none

/-- Matcher for slash-prefixed brace content. Embeds the seventh protection
regex. -/
def matchSlashVar : Str → Option (Str × Str)
  | '{' :: '/' :: rest =>
    match spanP (fun c => c != '}') rest with
    | (run, '}' :: r) => some ('{' :: '/' :: (run ++ ['}']), r)
    | _ => none
  | _ => none

/-- Matcher for brace-enclosed possibly empty content, the pattern used by
re.findall and re.sub for brace variables in the validation and cleaning
code. -/
def matchBraceStar : Str → Option (Str × Str)
  | '{' :: rest =>
    match spanP (fun c => c != '}') rest with
    | (run, '}' :: r) => some ('{' :: (run ++ ['}']), r)
    | _ => none
  | _ => none

/-- Matcher for one or more carets, the caret-cleaning regex of the
language-detection helpers. -/
def matchCaretPlus : Str → Option (Str × Str)
  | '^' :: rest =>
    match spanP (fun c => c == '^') rest with
    | (cs, r) => some ('^' :: cs, r)
  | _ => none

/-- One scanning step list of re.finditer: at each position try the matcher;
on success emit the token and continue after it, otherwise advance one
character. Fuel-based; every step consumes at least one character, so fuel
equal to the length of the string is enough. -/
def findIterAux (m : Str → Option (Str × Str)) : Nat → Str → List Str
  | 0, _ => []
  | _fuel + 1, [] => []
  | fuel + 1, c :: t =>
    match m (c :: t) with
    | some (tok, rest) => tok :: findIterAux m fuel rest
    | none => findIterAux m fuel t

/-- All non-overlapping leftmost matches of a matcher, as re.finditer and
re.findall produce them. -/
def findIter (m : Str → Option (Str × Str)) (s : Str) : List Str :=
  findIterAux m s.length s

/-- re.sub with empty replacement: delete every match, scanning left to
right. Fuel-based like findIterAux. -/
def reSubAux (m : Str → Option (Str × Str)) : Nat → Str → Str
  | 0, s => s
  | _fuel + 1, [] => []
  | fuel + 1, c :: t =>
    match m (c :: t) with
    | some (_tok, rest) => reSubAux m fuel rest
    | none => c :: reSubAux m fuel t

/-- Delete every match of a matcher from a string. -/
def reSub (m : Str → Option (Str × Str)) (s : Str) : Str :=
  reSubAux m s.length s

/-- Python str.replace with count 1: replace the first occurrence of old by
new, scanning left to right. -/
def replFirstAux (old new : Str) : Nat → Str → Str
  | 0, s => s
  | _fuel + 1, [] => []
  | fuel + 1, c :: t =>
    if old.isPrefixOf (c :: t) then new ++ (c :: t).drop old.length
    else c :: replFirstAux old new fuel t

/-- Python str.replace(old, new, 1). -/
def replaceFirstL (old new s : Str) : Str := replFirstAux old new s.length s

/-- Python str.replace with no count: replace every non-overlapping
occurrence of old by new, scanning left to right and not rescanning the
inserted replacement. -/
def replAllAux (old new : Str) : Nat → Str → Str
  | 0, s => s
  | _fuel + 1, [] => []
  | fuel + 1, c :: t =>
    if old.isPrefixOf (c :: t) then new ++ replAllAux old new fuel ((c :: t).drop old.length)
    else c :: replAllAux old new fuel t

/-- Python str.replace(old, new). -/
def replaceAllL (old new s : Str) : Str := replAllAux old new s.length s

/-- The ordered protection pattern table of translate_protected.py: each
entry is the matcher embedding the regex together with the placeholder base
name. -/
def protection_patterns : List ((Str → Option (Str × Str)) × Str) :=
  [(matchVarS, "PROTECTED_VAR_S".data),
   (matchVarReg, "PROTECTED_VAR_REG".data),
   (matchPlayername, "PROTECTED_PLAYERNAME".data),
   (matchConditional, "PROTECTED_CONDITIONAL".data),
   (matchOtherVar, "PROTECTED_OTHER_VAR".data),
   (matchDoubleCaret, "PROTECTED_DOUBLE_CARET".data),
   (matchSlashVar, "PROTECTED_SLASH_VAR".data)]

/-- Association-list lookup, modelling a Python dict read. -/
def lookupA : List (Str × Str) → Str → Option Str
  | [], _ => none
  | (k, v) :: t, key => if k = key then some v else lookupA t key

/-- Association-list assignment, modelling a Python dict write: overwrite in
place if the key exists, otherwise append, preserving insertion order. -/
def insertA : List (Str × Str) → Str → Str → List (Str × Str)
  | [], key, v => [(key, v)]
  | (k, w) :: t, key, v =>
    if k = key then (key, v) :: t else (k, w) :: insertA t key v

/-- The enumerated replacement loop inside protect_variables: for the i-th
match of one pattern, record placeholder maps-to original and replace the
first remaining occurrence of the original by the placeholder. -/
def protectLoop (tag : Str) : List Str → Nat → Str → List (Str × Str) → Str × List (Str × Str)
  | [], _, text, repl => (text, repl)
  | tok :: toks, i, text, repl =>
    protectLoop tag toks (i + 1)
      (replaceFirstL tok (tag ++ '_' :: natToStr i) text)
      (insertA repl (tag ++ '_' :: natToStr i) tok)

/-- Embeds _protect_variables of translate_protected.py: for each pattern in
order, list its matches over the current text (the match list is computed
over the snapshot the iterator was created on) and substitute placeholders
one by one. The protected-variables statistic is not modelled; it is unused
by the verified claims. -/
def protect_variables (text : Str) : Str × List (Str × Str) :=
  protection_patterns.foldl
    (fun acc pp => protectLoop pp.2 (findIter pp.1 acc.1) 0 acc.1 acc.2)
    (text, [])

/-- Embeds _restore_variables of translate_protected.py: replace every
placeholder occurrence by its original, iterating the mapping in insertion
order. -/
def restore_variables (text : Str) (repl : List (Str × Str)) : Str :=
  repl.foldl (fun t pr => replaceAllL pr.1 pr.2 t) text

/-- The brace-variable lists computed by the validation step of
_translate_text: re.findall of the brace pattern. -/
def findallBraces (s : Str) : List Str := findIter matchBraceStar s

/-- Embeds the validation step of _translate_text (translate_protected.py
lines 177 to 184): the translation is accepted exactly when the number of
brace-enclosed tokens found in the final text equals the number found in the
original text. -/
def validate_vars (original final : Str) : Bool :=
  (findallBraces original).length == (findallBraces final).length

/-- The cleaning applied before language detection and before the
token-only check in translate_protected.py: delete brace variables, delete
caret runs, then strip whitespace. -/
def strip_variables (text : Str) : Str :=
  stripL (reSub matchCaretPlus (reSub matchBraceStar text))

/-- Embeds _detect_language of translate_protected.py. The external
classifier is the oracle d; a none result models the classifier raising,
which the code maps to unknown, as it does a cleaned text shorter than three
characters. -/
def detect_language_protected (d : Str → Option Str) (text : Str) : Str :=
  if (strip_variables text).length < 3 then "unknown".data
  else
    match d (strip_variables text) with
    | some lang => lang
    | none => "unknown".data

/-- Embeds _should_translate of translate_protected.py: reject empty or
short text, reject text that is token-only after cleaning, then translate
exactly when the detected language is neither pt nor unknown. -/
def should_translate_protected (d : Str → Option Str) (text : Str) : Bool :=
  if text = [] then false
  else if (stripL text).length < 2 then false
  else if (strip_variables text).length < 2 then false
  else if detect_language_protected d text = "pt".data then false
  else if detect_language_protected d text = "unknown".data then false
  else true

/-- The mutable state of the ProtectedTranslator relevant to the verified
claims: the translation cache and the statistics counters touched by
_translate_text. -/
structure ProtState where
  cache : List (Str × Str)
  cacheHits : Nat
  translationRequests : Nat
  errors : Nat
deriving DecidableEq, Repr

/-- Embeds _translate_text of translate_protected.py. The oracle d is the
language classifier; svc is the external translation service on the
protected text, where none models the service raising. On a service
exception the code has already counted the translation request, counts one
error and returns the original text; on success it restores the variables,
falls back to the original text when the brace-token count validation
fails, stores the final text in the cache under the stripped original text
and returns it. -/
def translate_text_protected (d : Str → Option Str) (svc : Str → Option Str)
    (text : Str) (st : ProtState) : Str × ProtState :=
  if should_translate_protected d text then
    match lookupA st.cache (stripL text) with
    | some v => (v, { st with cacheHits := st.cacheHits + 1 })
    | none =>
      match svc (protect_variables text).1 with
      | none =>
        (text, { st with translationRequests := st.translationRequests + 1,
                         errors := st.errors + 1 })
      | some translated =>
        if validate_vars text (restore_variables translated (protect_variables text).2) then
          (restore_variables translated (protect_variables text).2,
           { st with translationRequests := st.translationRequests + 1,
                     cache := insertA st.cache (stripL text)
                       (restore_variables translated (protect_variables text).2) })
        else
          (text, { st with translationRequests := st.translationRequests + 1,
                           cache := insertA st.cache (stripL text) text })
  else (text, st)

/-- Embeds detect_language of translate_optimized.py: strip, report unknown
below three characters or when the classifier raises, otherwise the
classifier result. The languages-detected statistic set is not modelled; it
is unused by the verified claims. -/
def detect_language_opt (d : Str → Option Str) (text : Str) : Str :=
  if (stripL text).length < 3 then "unknown".data
  else
    match d (stripL text) with
    | some lang => lang
    | none => "unknown".data

/-- The literal sentinel denylist of translate_optimized.py. -/
def ignore_texts : List Str :=
  ["INVALID ITEM".data, "NO ITEM".data, "NONE".data, "NULL".data, "N/A".data,
   "Correctif bug langage".data, "PLACEHOLDER".data, "TODO".data]

/-- Embeds should_translate of translate_optimized.py: the checks run in
order on the whitespace-stripped text, and the final line of the source,
returning the inequality of the detected language with unknown after the pt
check, is written as the equivalent final two branches. -/
def should_translate_opt (d : Str → Option Str) (text : Str) : Bool :=
  if (stripL text).length < 2 then false
  else if pyIsDigit (stripL text) then false
  else if pyIsUpper (stripL text)
          && ((stripL text).any (fun c => c == '_') || pyIsAlnum (stripL text)) then false
  else if ignore_texts.any (fun x => x == pyUpper (stripL text)) then false
  else if detect_language_opt d (stripL text) = "pt".data then false
  else if detect_language_opt d (stripL text) = "unknown".data then false
  else true

/-- The Language Gate condition exactly as claim C5 words it, for comparison
with the source function should_translate_opt: the gate returns false when
the trimmed text is shorter than two characters, or purely numeric, or
upper-case alphanumeric with underscores, or literally equal to a denylist
sentinel, or the classifier reports the target language or no confident
language; otherwise true. -/
def needs_translation_claim (d : Str → Option Str) (text : Str) : Bool :=
  !(decide ((stripL text).length < 2)
    || pyIsDigit (stripL text)
    || (!(stripL text).isEmpty
        && (stripL text).all (fun c => c.isUpper || c.isDigit || c == '_'))
    || ignore_texts.any (fun x => x == stripL text)
    || (detect_language_opt d (stripL text) == "pt".data)
    || (detect_language_opt d (stripL text) == "unknown".data))

/-- The corrected Language Gate condition: the disjunction of the five
rejection conditions as the code actually tests them, namely on the trimmed
text, with the internal-code bucket being upper-case text that contains an
underscore or is entirely alphanumeric, and the denylist matched against
the upper-cased text. -/
def gate_false_amended (d : Str → Option Str) (text : Str) : Prop :=
  (stripL text).length < 2
  ∨ pyIsDigit (stripL text) = true
  ∨ (pyIsUpper (stripL text)
     && ((stripL text).any (fun c => c == '_') || pyIsAlnum (stripL text))) = true
  ∨ ignore_texts.any (fun x => x == pyUpper (stripL text)) = true
  ∨ detect_language_opt d (stripL text) = "pt".data
  ∨ detect_language_opt d (stripL text) = "unknown".data

/-- The mutable state of the OptimizedMountBladeTranslator relevant to the
verified claims: the cache, the translator handle pool (a queue of handle
identifiers), the statistics counters, plus two instrumentation counters of
the external world: svcCalls counts invocations of the external service and
sleeps counts executions of the rate-limit delay. -/
structure OptState where
  cache : List (Str × Str)
  pool : List Nat
  linesCached : Nat
  linesTranslated : Nat
  linesSkipped : Nat
  errors : Nat
  svcCalls : Nat
  sleeps : Nat
deriving DecidableEq, Repr

/-- Embeds get_cache_key of translate_optimized.py. The source computes the
MD5 hex digest of the string srcLang colon text; the digest is modelled by
the digested string itself, which preserves exactly what the claims rely
on: the key is a pure deterministic function of the pair. -/
def get_cache_key (text srcLang : Str) : Str :=
  srcLang ++ ':' :: text

/-- Embeds translate_text_cached of translate_optimized.py. On a cache hit
the cached value is returned at once: no handle is taken from the pool, no
service call is made, no delay is slept. On a miss a handle is taken from
the pool (none models the take blocking on an empty pool), the service is
called once; on success the translation is stored in the cache, the
rate-limit delay is slept and the handle returned; on a service exception
the handle is returned by the finally block, one error is counted and the
original text is returned, with no cache write and no delay. -/
def translate_text_cached (svc : Str → Str → Option Str) (text srcLang : Str)
    (st : OptState) : Option (Str × OptState) :=
  match lookupA st.cache (get_cache_key text srcLang) with
  | some v => some (v, { st with linesCached := st.linesCached + 1 })
  | none =>
    match st.pool with
    | [] => none
    | h :: rest =>
      match svc text srcLang with
      | some translated =>
        some (translated,
          { st with cache := insertA st.cache (get_cache_key text srcLang) translated,
                    sleeps := st.sleeps + 1,
                    svcCalls := st.svcCalls + 1,
                    pool := rest ++ [h] })
      | none =>
        some (text, { st with errors := st.errors + 1,
                              svcCalls := st.svcCalls + 1,
                              pool := rest ++ [h] })

/-- Does the line contain the pipe separator? Models the Python membership
test of the separator character in the line. -/
def hasPipe : Str → Bool
  | [] => false
  | c :: t => c == '|' || hasPipe t

/-- Python line.split on the pipe with maxsplit one, given that the line
contains a pipe: the part before the first pipe and the part after it. -/
def split_pipe : Str → Str × Str
  | [] => ([], [])
  | c :: t =>
    if c == '|' then ([], t)
    else
      match split_pipe t with
      | (p, r) => (c :: p, r)

/-- Embeds detect_language of translate_csv.py: none models both an
inconclusive short text and the classifier raising. -/
def detect_language_csv (d : Str → Option Str) (text : Str) : Option Str :=
  if (stripL text).length < 3 then none
  else d (stripL text)

/-- Embeds translate_text of translate_csv.py: return the text unchanged
when it is already detected as pt, otherwise call the service (modelled by
svc, none meaning the call raised) and fall back to the original text on an
exception. -/
def translate_text_csv (d : Str → Option Str) (svc : Str → Option Str) (text : Str) : Str :=
  if detect_language_csv d text = some "pt".data then text
  else
    match svc text with
    | some t => t
    | none => text

/-- Embeds process_csv_line of translate_csv.py: strip the line, pass it
through when it has no pipe or when the text portion after the first pipe
is blank, otherwise keep the parameter part and translate only the text
part. -/
def process_csv_line (d : Str → Option Str) (svc : Str → Option Str) (line : Str) : Str :=
  if hasPipe (stripL line) then
    if stripL (split_pipe (stripL line)).2 = [] then stripL line
    else
      (split_pipe (stripL line)).1 ++ '|' ::
        translate_text_csv d svc (split_pipe (stripL line)).2
  else stripL line

/-- Embeds process_line of translate_optimized.py: strip the line, pass it
through when it has no pipe, otherwise gate the text part; when the gate
passes, detect the source language (auto when unknown) and translate the
text part through the cached dispatcher, keeping the parameter part. -/
def process_line (d : Str → Option Str) (svc : Str → Str → Option Str)
    (line : Str) (st : OptState) : Option (Str × OptState) :=
  if hasPipe (stripL line) then
    if should_translate_opt d (split_pipe (stripL line)).2 then
      match translate_text_cached svc (split_pipe (stripL line)).2
          (if detect_language_opt d (split_pipe (stripL line)).2 = "unknown".data
           then "auto".data
           else detect_language_opt d (split_pipe (stripL line)).2) st with
      | none => none
      | some (tr, st1) =>
        some ((split_pipe (stripL line)).1 ++ '|' :: tr,
          { st1 with linesTranslated := st1.linesTranslated + 1 })
    else some (stripL line, { st with linesSkipped := st.linesSkipped + 1 })
  else some (stripL line, st)

/-! Helper lemmas shared by the claim theorems. -/

/-- Reading back the key just written into an association list yields the
written value. -/
theorem lookupA_insertA (l : List (Str × Str)) (k v : Str) :
    lookupA (insertA l k v) k = some v := by
  induction l with
  | nil => simp [insertA, lookupA]
  | cons hd t ih =>
    obtain ⟨k1, v1⟩ := hd
    by_cases hk : k1 = k <;> simp [insertA, lookupA, hk, ih]

/-- A line containing a pipe is the concatenation of its part before the
first pipe, the pipe, and its part after the first pipe. -/
theorem hasPipe_split (l : Str) (h : hasPipe l = true) :
    l = (split_pipe l).1 ++ '|' :: (split_pipe l).2 := by
  induction l with
  | nil => simp [hasPipe] at h
  | cons c t ih =>
    by_cases hc : c = '|'
    · subst hc; simp [split_pipe]
    · have hc2 : (c == '|') = false := by simp [hc]
      have ht : hasPipe t = true := by simpa [hasPipe, hc2] using h
      rcases hsp : split_pipe t with ⟨p, r⟩
      simp only [split_pipe, hc2, Bool.false_eq_true, if_false, hsp, List.cons_append,
        List.cons.injEq, true_and]
      simpa [hsp] using ih ht

/-- Cache-hit characterization of translate_text_cached: the cached value is
returned and only the cached-lines counter changes. -/
theorem ttc_hit (svc : Str → Str → Option Str) (text src : Str) (st : OptState) (v : Str)
    (hhit : lookupA st.cache (get_cache_key text src) = some v) :
    translate_text_cached svc text src st =
      some (v, { st with linesCached := st.linesCached + 1 }) := by
  simp [translate_text_cached, hhit]

/-- Cache-miss success characterization of translate_text_cached. -/
theorem ttc_miss_ok (svc : Str → Str → Option Str) (text src : Str) (st : OptState)
    (h : Nat) (rest : List Nat) (tr : Str)
    (hmiss : lookupA st.cache (get_cache_key text src) = none)
    (hpool : st.pool = h :: rest)
    (hsvc : svc text src = some tr) :
    translate_text_cached svc text src st =
      some (tr, { st with cache := insertA st.cache (get_cache_key text src) tr,
                          sleeps := st.sleeps + 1,
                          svcCalls := st.svcCalls + 1,
                          pool := rest ++ [h] }) := by
  simp [translate_text_cached, hmiss, hpool, hsvc]

/-- Cache-miss failure characterization of translate_text_cached. -/
theorem ttc_miss_fail (svc : Str → Str → Option Str) (text src : Str) (st : OptState)
    (h : Nat) (rest : List Nat)
    (hmiss : lookupA st.cache (get_cache_key text src) = none)
    (hpool : st.pool = h :: rest)
    (hfail : svc text src = none) :
    translate_text_cached svc text src st =
      some (text, { st with errors := st.errors + 1,
                            svcCalls := st.svcCalls + 1,
                            pool := rest ++ [h] }) := by
  simp [translate_text_cached, hmiss, hpool, hfail]

/-! The claim theorems. -/

set_option maxRecDepth 8000 in
/-- C1: the claimed token round trip fails on the code. On a string of
eleven simple substitution variables, protection numbers the placeholders
zero to ten, and restoration, which blindly replaces every occurrence of
each placeholder in numbering order, rewrites the prefix
PROTECTED_VAR_S_1 of the eleventh placeholder PROTECTED_VAR_S_10 first, so
the round trip corrupts the final token instead of returning the input. -/
theorem token_round_trip_code_bug :
    restore_variables
        (protect_variables "{S1}{S2}{S3}{S4}{S5}{S6}{S7}{S8}{S9}{S10}{S11}".data).1
        (protect_variables "{S1}{S2}{S3}{S4}{S5}{S6}{S7}{S8}{S9}{S10}{S11}".data).2
      = "{S1}{S2}{S3}{S4}{S5}{S6}{S7}{S8}{S9}{S10}{S2}0".data
    ∧ restore_variables
        (protect_variables "{S1}{S2}{S3}{S4}{S5}{S6}{S7}{S8}{S9}{S10}{S11}".data).1
        (protect_variables "{S1}{S2}{S3}{S4}{S5}{S6}{S7}{S8}{S9}{S10}{S11}".data).2
      ≠ "{S1}{S2}{S3}{S4}{S5}{S6}{S7}{S8}{S9}{S10}{S11}".data := by
  constructor
  · decide
  · decide

/-- C2: counterexample to the claimed multiset validation. The validation
step accepts a restored text whose single brace token differs from the
original one, because only the counts of brace tokens are compared, and it
accepts the loss of a caret token, because caret tokens are not inspected
at all. -/
theorem validation_multiset_cex :
    validate_vars "{a}".data "{b}".data = true
    ∧ ¬ (findallBraces "{a}".data).Perm (findallBraces "{b}".data)
    ∧ validate_vars "^^".data "".data = true := by
  refine ⟨by decide, by decide, by decide⟩

/-- C2 amended: the validation step returns true exactly when the number of
brace-enclosed tokens found in the restored text equals the number found in
the original text; token identity is not compared and caret tokens are not
counted. In particular validation of a text against itself always
succeeds. -/
theorem validation_count_amended (original final : Str) :
    (validate_vars original final = true ↔
      (findallBraces original).length = (findallBraces final).length)
    ∧ validate_vars original original = true := by
  constructor
  · simp [validate_vars]
  · simp [validate_vars]

/-- C3: fallback guarantee. In translate_text_protected, when the gate
passes, the cache misses and the external service raises, the original text
is returned, exactly one error is counted and exactly one translation
request was issued; the cache is untouched. In translate_text_cached, when
the cache misses, a handle is available and the service raises, the
original text is returned, exactly one error is counted, exactly one
service call was made, no delay is slept and the handle goes back to the
pool. -/
theorem fallback_guarantee :
    (∀ (d : Str → Option Str) (svc : Str → Option Str) (text : Str) (st : ProtState),
      should_translate_protected d text = true →
      lookupA st.cache (stripL text) = none →
      svc (protect_variables text).1 = none →
      translate_text_protected d svc text st =
        (text, { st with translationRequests := st.translationRequests + 1,
                         errors := st.errors + 1 }))
    ∧ (∀ (svc : Str → Str → Option Str) (text src : Str) (st : OptState)
        (h : Nat) (rest : List Nat),
      lookupA st.cache (get_cache_key text src) = none →
      st.pool = h :: rest →
      svc text src = none →
      translate_text_cached svc text src st =
        some (text, { st with errors := st.errors + 1,
                              svcCalls := st.svcCalls + 1,
                              pool := rest ++ [h] })) := by
  constructor
  · intro d svc text st h1 h2 h3
    simp [translate_text_protected, h1, h2, h3]
  · intro svc text src st h rest h1 h2 h3
    exact ttc_miss_fail svc text src st h rest h1 h2 h3

/-- C3 witness: both fallback paths at concrete inputs. -/
theorem fallback_guarantee_w :
    translate_text_protected (fun _ => some "fr".data) (fun _ => none) "Bonjour".data
        ⟨[], 0, 0, 0⟩
      = ("Bonjour".data, ⟨[], 0, 1, 1⟩)
    ∧ translate_text_cached (fun _ _ => none) "Bonjour".data "fr".data
        ⟨[], [0], 0, 0, 0, 0, 0, 0⟩
      = some ("Bonjour".data, ⟨[], [0], 0, 0, 0, 1, 1, 0⟩) := by
  constructor
  · exact fallback_guarantee.1 _ _ _ _ (by decide) (by decide) (by decide)
  · exact fallback_guarantee.2 _ _ _ _ 0 [] (by decide) rfl rfl

/-- C4: cache idempotence. Translating a missing pair with an available
handle and a succeeding service issues exactly one service call and stores
the translation; the immediately following call with the same pair returns
the stored value with no further service call. -/
theorem cache_idempotence (svc : Str → Str → Option Str) (text src : Str)
    (st : OptState) (tr : Str) (h : Nat) (rest : List Nat)
    (hmiss : lookupA st.cache (get_cache_key text src) = none)
    (hpool : st.pool = h :: rest)
    (hsvc : svc text src = some tr) :
    ∃ st1, translate_text_cached svc text src st = some (tr, st1)
      ∧ st1.svcCalls = st.svcCalls + 1
      ∧ lookupA st1.cache (get_cache_key text src) = some tr
      ∧ ∃ st2, translate_text_cached svc text src st1 = some (tr, st2)
        ∧ st2.svcCalls = st1.svcCalls := by
  refine ⟨_, ttc_miss_ok svc text src st h rest tr hmiss hpool hsvc, rfl,
    lookupA_insertA st.cache (get_cache_key text src) tr, ?_⟩
  exact ⟨_, ttc_hit svc text src _ tr (lookupA_insertA st.cache (get_cache_key text src) tr),
    rfl⟩

/-- C4 witness: the double call at a concrete input, every hypothesis
discharged by evaluation. -/
theorem cache_idempotence_w :
    (translate_text_cached (fun _ _ => some "Ola".data) "Hello".data "en".data
      ⟨[], [0], 0, 0, 0, 0, 0, 0⟩).isSome = true := by
  obtain ⟨st1, h1, -, -, -⟩ :=
    cache_idempotence (fun _ _ => some "Ola".data) "Hello".data "en".data
      ⟨[], [0], 0, 0, 0, 0, 0, 0⟩ "Ola".data 0 [] (by decide) rfl rfl
  simp [h1]

/-- C5: counterexample to the claimed gate conditions. The text
HELLO_WORLD! is not upper-case alphanumeric with underscores because of the
exclamation mark, is not short, numeric or denylisted, and the classifier
reports English, so under the claimed conditions the gate would return
true; the source gate returns false, because its internal-code test only
requires an upper-case text containing an underscore. -/
theorem gate_conditions_cex :
    needs_translation_claim (fun _ => some "en".data) "HELLO_WORLD!".data = true
    ∧ should_translate_opt (fun _ => some "en".data) "HELLO_WORLD!".data = false := by
  refine ⟨by decide, by decide⟩

/-- C5 amended: the gate of translate_optimized.py returns false exactly
when the trimmed text is shorter than two characters, or purely numeric, or
upper-case and containing an underscore or entirely alphanumeric, or its
upper-cased form is a denylist sentinel, or the classifier wrapper reports
pt or unknown; and a text whose classifier wrapper reports the target
language pt is never translated. -/
theorem gate_conditions_amended (d : Str → Option Str) (text : Str) :
    (should_translate_opt d text = false ↔ gate_false_amended d text)
    ∧ (detect_language_opt d (stripL text) = "pt".data →
        should_translate_opt d text = false) := by
  constructor
  · unfold should_translate_opt gate_false_amended
    split_ifs with h1 h2 h3 h4 h5 h6 <;> simp_all
  · intro h
    unfold should_translate_opt
    split_ifs <;> simp_all

/-- C5 witness: a text the classifier reports as pt is gated out. -/
theorem gate_conditions_w :
    should_translate_opt (fun _ => some "pt".data) "Bonjour".data = false :=
  (gate_conditions_amended (fun _ => some "pt".data) "Bonjour".data).2 (by decide)

/-- C6: counterexample. The gate of translate_optimized.py does not strip
formatting tokens before its checks: a string consisting only of two brace
tokens, which the token cleaner reduces to the empty string, is classified
as needing translation when the classifier reports a non-target
language. -/
theorem gate_token_strip_cex :
    strip_variables "{S1} {S2}".data = []
    ∧ should_translate_opt (fun _ => some "en".data) "{S1} {S2}".data = true := by
  refine ⟨by decide, by decide⟩

/-- C6 amended: the gate of the protected pipeline does evaluate its checks
on token-stripped text: whenever deleting brace tokens and caret runs and
stripping whitespace leaves fewer than two characters, the protected gate
classifies the text as not needing translation, for every classifier. -/
theorem gate_token_strip_amended (d : Str → Option Str) (text : Str)
    (h : (strip_variables text).length < 2) :
    should_translate_protected d text = false := by
  unfold should_translate_protected
  split_ifs <;> simp_all

/-- C6 witness: a token-only string is gated out of the protected pipeline
even when the classifier would report English. -/
theorem gate_token_strip_w :
    should_translate_protected (fun _ => some "en".data) "{S1}".data = false :=
  gate_token_strip_amended (fun _ => some "en".data) "{S1}".data (by decide)

/-- C7: counterexample. On a cache miss in translate_text_protected with
the service returning the protected text unchanged, the value inserted into
the cache is the fully restored text, which still carries the brace token,
and not the protected placeholder-bearing translation. -/
theorem cache_protected_form_cex :
    (translate_text_protected (fun _ => some "fr".data) (fun s => some s)
        "Bonjour {playername}".data ⟨[], 0, 0, 0⟩).2.cache
      = [("Bonjour {playername}".data, "Bonjour {playername}".data)]
    ∧ (protect_variables "Bonjour {playername}".data).1
      = "Bonjour PROTECTED_PLAYERNAME_0".data
    ∧ ("Bonjour {playername}".data : Str) ≠ "Bonjour PROTECTED_PLAYERNAME_0".data
    ∧ findallBraces "Bonjour {playername}".data ≠ [] := by
  refine ⟨by decide, by decide, by decide, by decide⟩

/-- C7 amended: on every cache-miss translation that reaches the service
successfully, the value inserted into the cache, under the stripped
original text as key, is the restored final text: the restoration of the
translated protected text when the count validation passes, and the
original text otherwise. The protected form is not what is cached. -/
theorem cache_stores_restored_amended (d : Str → Option Str) (svc : Str → Option Str)
    (text : Str) (st : ProtState) (translated : Str)
    (hgate : should_translate_protected d text = true)
    (hmiss : lookupA st.cache (stripL text) = none)
    (hsvc : svc (protect_variables text).1 = some translated) :
    (translate_text_protected d svc text st).2.cache =
      insertA st.cache (stripL text)
        (if validate_vars text (restore_variables translated (protect_variables text).2)
         then restore_variables translated (protect_variables text).2
         else text)
    ∧ (translate_text_protected d svc text st).1 =
      (if validate_vars text (restore_variables translated (protect_variables text).2)
       then restore_variables translated (protect_variables text).2
       else text) := by
  by_cases hv : validate_vars text (restore_variables translated (protect_variables text).2) <;>
    simp [translate_text_protected, hgate, hmiss, hsvc, hv]

/-- C7 witness: the amended cache rule at a concrete input. -/
theorem cache_stores_restored_w :
    (translate_text_protected (fun _ => some "fr".data) (fun s => some s)
        "Bonjour {playername}".data ⟨[], 0, 0, 0⟩).2.cache
      = insertA [] (stripL "Bonjour {playername}".data) "Bonjour {playername}".data := by
  have h := (cache_stores_restored_amended (fun _ => some "fr".data) (fun s => some s)
    "Bonjour {playername}".data ⟨[], 0, 0, 0⟩ "Bonjour PROTECTED_PLAYERNAME_0".data
    (by decide) (by decide) (by decide)).1
  rw [h]
  decide

/-- C8: counterexample. Every line is stripped of surrounding whitespace
before processing, so a line with trailing whitespace and no pipe is not
returned unchanged, and a leading space on the parameter part before the
first pipe is not preserved verbatim. -/
theorem line_pass_through_cex :
    process_csv_line (fun _ => none) (fun _ => none) "hi ".data = "hi".data
    ∧ ("hi".data : Str) ≠ "hi ".data
    ∧ process_csv_line (fun _ => none) (fun _ => none) " x|y".data = "x|y".data
    ∧ ("x|y".data : Str) ≠ " x|y".data := by
  refine ⟨by decide, by decide, by decide, by decide⟩

/-- C8 amended: after stripping surrounding whitespace from the line, a
line without a pipe is returned as the stripped line; a line with a pipe is
returned as the stripped parameter part before the first pipe, the pipe,
and a text part in which only the portion after the first pipe was
processed, the stripped line itself when the text portion is blank.
This holds for process_csv_line of translate_csv.py and for process_line of
translate_optimized.py. -/
theorem line_pass_through_amended :
    (∀ (d : Str → Option Str) (svc : Str → Option Str) (line : Str),
      hasPipe (stripL line) = false → process_csv_line d svc line = stripL line)
    ∧ (∀ (d : Str → Option Str) (svc : Str → Option Str) (line : Str),
      hasPipe (stripL line) = true →
      process_csv_line d svc line =
        (split_pipe (stripL line)).1 ++ '|' ::
          (if stripL (split_pipe (stripL line)).2 = []
           then (split_pipe (stripL line)).2
           else translate_text_csv d svc (split_pipe (stripL line)).2))
    ∧ (∀ (d : Str → Option Str) (svc : Str → Str → Option Str) (line : Str) (st : OptState),
      hasPipe (stripL line) = false → process_line d svc line st = some (stripL line, st))
    ∧ (∀ (d : Str → Option Str) (svc : Str → Str → Option Str) (line : Str) (st : OptState)
        (out : Str) (st1 : OptState),
      hasPipe (stripL line) = true →
      process_line d svc line st = some (out, st1) →
      ∃ r, out = (split_pipe (stripL line)).1 ++ '|' :: r) := by
  refine ⟨?_, ?_, ?_, ?_⟩
  · intro d svc line hp
    simp [process_csv_line, hp]
  · intro d svc line hp
    by_cases he : stripL (split_pipe (stripL line)).2 = []
    · simp only [process_csv_line, hp, if_true, he, if_pos he]
      exact hasPipe_split _ hp
    · simp [process_csv_line, hp, he]
  · intro d svc line st hp
    simp [process_line, hp]
  · intro d svc line st out st1 hp hres
    simp only [process_line, hp, if_true] at hres
    by_cases hg : should_translate_opt d (split_pipe (stripL line)).2 = true
    · simp only [hg, if_true] at hres
      cases httc : translate_text_cached svc (split_pipe (stripL line)).2
          (if detect_language_opt d (split_pipe (stripL line)).2 = "unknown".data
           then "auto".data
           else detect_language_opt d (split_pipe (stripL line)).2) st with
      | none => rw [httc] at hres; simp at hres
      | some pr =>
        obtain ⟨tr, st2⟩ := pr
        rw [httc] at hres
        simp only [Option.some.injEq, Prod.mk.injEq] at hres
        exact ⟨tr, hres.1.symm⟩
    · rw [if_neg hg] at hres
      simp only [Option.some.injEq, Prod.mk.injEq] at hres
      refine ⟨(split_pipe (stripL line)).2, ?_⟩
      rw [← hres.1]
      exact hasPipe_split _ hp

/-- C8 witness: the amended pass-through at concrete lines. -/
theorem line_pass_through_w :
    process_csv_line (fun _ => some "fr".data) (fun _ => some "Ola".data)
      " id|Bonjour ".data = "id|Ola".data := by
  rw [line_pass_through_amended.2.1 (fun _ => some "fr".data) (fun _ => some "Ola".data)
    " id|Bonjour ".data (by decide)]
  decide

/-- C9: a cache hit returns the cached value while leaving the pool, the
sleep counter, the service-call counter, the error counter and the cache
itself unchanged; only the cached-lines statistic is incremented. -/
theorem cache_hit_frame (svc : Str → Str → Option Str) (text src : Str)
    (st : OptState) (v : Str)
    (hhit : lookupA st.cache (get_cache_key text src) = some v) :
    translate_text_cached svc text src st =
      some (v, { st with linesCached := st.linesCached + 1 }) := by
  simp [translate_text_cached, hhit]

/-- C9 witness: a cache hit succeeds with a completely empty handle pool,
so no handle is consumed and no delay is slept. -/
theorem cache_hit_frame_w :
    translate_text_cached (fun _ _ => none) "Hello".data "en".data
        ⟨[("en:Hello".data, "Ola".data)], [], 0, 0, 0, 0, 0, 0⟩
      = some ("Ola".data, ⟨[("en:Hello".data, "Ola".data)], [], 1, 0, 0, 0, 0, 0⟩) :=
  cache_hit_frame (fun _ _ => none) "Hello".data "en".data
    ⟨[("en:Hello".data, "Ola".data)], [], 0, 0, 0, 0, 0, 0⟩ "Ola".data (by decide)

/-- C10: error atomicity of the cache. When the cache misses and the
service raises, the returned state carries the unchanged cache and one more
error, and a later call with the same pair misses again and issues a new
service call. -/
theorem cache_error_atomicity (svc : Str → Str → Option Str) (text src : Str)
    (st : OptState) (h : Nat) (rest : List Nat)
    (hmiss : lookupA st.cache (get_cache_key text src) = none)
    (hpool : st.pool = h :: rest)
    (hfail : svc text src = none) :
    ∃ st1, translate_text_cached svc text src st = some (text, st1)
      ∧ st1.cache = st.cache
      ∧ st1.errors = st.errors + 1
      ∧ ∃ st2, translate_text_cached svc text src st1 = some (text, st2)
        ∧ st2.svcCalls = st1.svcCalls + 1 := by
  refine ⟨_, ttc_miss_fail svc text src st h rest hmiss hpool hfail, rfl, rfl, ?_⟩
  cases rest with
  | nil => exact ⟨_, ttc_miss_fail svc text src _ h [] hmiss rfl hfail, rfl⟩
  | cons a as => exact ⟨_, ttc_miss_fail svc text src _ a (as ++ [h]) hmiss rfl hfail, rfl⟩

/-- C10 witness: the failing call at a concrete input. -/
theorem cache_error_atomicity_w :
    (translate_text_cached (fun _ _ => none) "Hello".data "en".data
      ⟨[], [7], 0, 0, 0, 0, 0, 0⟩).isSome = true := by
  obtain ⟨st1, h1, -, -, -⟩ :=
    cache_error_atomicity (fun _ _ => none) "Hello".data "en".data
      ⟨[], [7], 0, 0, 0, 0, 0, 0⟩ 7 [] (by decide) rfl rfl
  simp [h1]
